import Mathlib

/-!
Shallow embedding of `fbads.py` (HCS ad generator).

The script is a linear pipeline: ElevenLabs TTS -> Wav2Lip lip-sync ->
moviepy slide composition. External behaviour (the HTTP response of the
TTS service, the existence of the Wav2Lip checkpoint on disk, the exit
code of the Wav2Lip subprocess, the clip read back from the lip-sync
output) is collected in an `Env` record; side effects are recorded as an
explicit trace of `Effect`s and Python exceptions become `Except` errors.
-/

namespace FBAds

/-! ## Configuration constants (module level in fbads.py) -/

def ELEVENLABS_API_KEY : String := "sk_55bb280a58baa1308015d462f622c89e7c596727589c750f"

def VOICE_ID : String := "9BWtsMINqrJLrRacOk9x"

def SPOKESPERSON_IMAGE : String := "spokesperson.jpg"

def WAV2LIP_PATH : String := "Wav2Lip"

def OUTPUT_DIR : String := "output"

def VIDEO_SIZE : Nat × Nat := (720, 1280)

/-! ## Data model -/

/-- A moviepy `TextClip` together with the attributes the script sets on it
(`fontsize`, `font`, `color`, `size`, `set_duration`). -/
structure TextClip where
  text : String
  fontsize : Nat
  font : String
  color : String
  size : Nat × Nat
  duration : Nat
  deriving DecidableEq, Repr

/-- The lip-synced talking-head clip read back by `VideoFileClip`:
its frame size and its (opaque) audio track. -/
structure VideoClip where
  size : Nat × Nat
  audio : Option String
  deriving DecidableEq, Repr

/-- The response object returned by `requests.post` to the TTS service. -/
structure TTSResponse where
  status_code : Nat
  text : String
  content : List Nat
  deriving DecidableEq, Repr

/-- Behaviour of the external world during one run. -/
structure Env where
  ttsResponse : TTSResponse
  checkpointExists : Bool
  wav2lipExit : Nat
  lipClip : VideoClip
  deriving DecidableEq, Repr

/-- Observable side effects of the script. -/
inductive Effect where
  | httpPost (url : String) (body : String)
  | writeFile (path : String) (content : List Nat)
  | runSubprocess (cmd : List String)
  | writeVideo (path : String) (fps : Nat)
  deriving DecidableEq, Repr

/-- The Python exceptions the script can raise. -/
inductive PyError where
  | runtimeError (msg : String)
  | fileNotFoundError (msg : String)
  | calledProcessError (exitCode : Nat)
  deriving DecidableEq, Repr

def Effect.isFileWrite : Effect → Bool
  | .writeFile _ _ => true
  | _ => false

def Effect.isSubprocess : Effect → Bool
  | .runSubprocess _ => true
  | _ => false

def Effect.isVideoWrite : Effect → Bool
  | .writeVideo _ _ => true
  | _ => false

/-! ## generate_audio -/

def tts_url : String := "https://api.elevenlabs.io/v1/text-to-speech/" ++ VOICE_ID

/-- `generate_audio(text, output_path)`: posts `text` to the TTS service;
on status 200 writes the response bytes to `output_path`, otherwise raises
`RuntimeError(f"ElevenLabs TTS failed: \x7bresp.status_code\x7d \x7bresp.text\x7d")`. -/
def generate_audio (env : Env) (text : String) (output_path : String) :
    List Effect × Except PyError String :=
  let resp := env.ttsResponse
  if resp.status_code = 200 then
    ([Effect.httpPost tts_url text, Effect.writeFile output_path resp.content],
      Except.ok output_path)
  else
    ([Effect.httpPost tts_url text],
      Except.error (PyError.runtimeError
        ("ElevenLabs TTS failed: " ++ toString resp.status_code ++ " " ++ resp.text)))

/-! ## generate_lip_synced_video -/

def checkpoint : String := WAV2LIP_PATH ++ "/checkpoints/wav2lip_gan.pth"

def wav2lip_cmd (audio_path image_path output_path : String) : List String :=
  ["python", WAV2LIP_PATH ++ "/inference.py",
    "--checkpoint_path", checkpoint,
    "--face", image_path,
    "--audio", audio_path,
    "--outfile", output_path]

/-- `generate_lip_synced_video(audio_path, image_path, output_path)`: raises
`FileNotFoundError` when the checkpoint file is absent, before the subprocess
is run; otherwise runs Wav2Lip inference (non-zero exit raises
`CalledProcessError` because of `check=True`). -/
def generate_lip_synced_video (env : Env) (audio_path image_path output_path : String) :
    List Effect × Except PyError String :=
  if env.checkpointExists = false then
    ([], Except.error (PyError.fileNotFoundError
      "Place wav2lip_gan.pth into Wav2Lip/checkpoints/ first."))
  else if env.wav2lipExit = 0 then
    ([Effect.runSubprocess (wav2lip_cmd audio_path image_path output_path)],
      Except.ok output_path)
  else
    ([Effect.runSubprocess (wav2lip_cmd audio_path image_path output_path)],
      Except.error (PyError.calledProcessError env.wav2lipExit))

/-! ## create_benefit_slides -/

/-- The `TextClip` built for one benefit bullet:
fontsize 48, white, sized to the clip, 3-second duration. -/
def benefitClip (sz : Nat × Nat) (text : String) : TextClip :=
  { text := text, fontsize := 48, font := "Arial-Bold", color := "white",
    size := sz, duration := 3 }

/-- The final CTA `TextClip`: fontsize 60, yellow, 4-second duration. -/
def ctaClip (sz : Nat × Nat) (phone_number : String) : TextClip :=
  { text := "Call Now: " ++ phone_number, fontsize := 60, font := "Arial-Bold",
    color := "yellow", size := sz, duration := 4 }

/-- The final composed video: the talking-head clip, then the slide clips
(with the head clip audio re-attached), encoded at a fixed fps. -/
structure FinalVideo where
  headClip : VideoClip
  slides : List TextClip
  slidesAudio : Option String
  fps : Nat
  path : String
  deriving DecidableEq, Repr

/-- `create_benefit_slides(video_clip, benefit_texts, phone_number, output_path)`:
one 3-second slide per benefit, then one 4-second CTA slide, concatenated after
the lip-synced clip with its audio set on the slide sequence, written at fps 24. -/
def create_benefit_slides (video_clip : VideoClip) (benefit_texts : List String)
    (phone_number : String) (output_path : String) : List Effect × FinalVideo :=
  let slide_clips := benefit_texts.map (benefitClip video_clip.size) ++
    [ctaClip video_clip.size phone_number]
  let final : FinalVideo :=
    { headClip := video_clip, slides := slide_clips,
      slidesAudio := video_clip.audio, fps := 24, path := output_path }
  ([Effect.writeVideo output_path 24], final)

/-! ## Templates and benefit lists -/

def ACA_TEMPLATE : String :=
  "Hello! I\x27m excited to share that you may qualify for a health insurance plan with $0 monthly premiums, " ++
  "thanks to new government subsidies under the Affordable Care Act. These plans can include dental, vision, " ++
  "and prescription coverage — all at no cost if you qualify. The enrollment is fast and easy — it takes just 5 minutes. " ++
  "Call us now at (561) 576-0801 to check your eligibility and get covered today!"

def FE_TEMPLATE : String :=
  "Hi there! Looking for affordable final expense coverage? We offer guaranteed-issue plans with no medical exams, " ++
  "and competitive rates starting at just $20 a month. Your loved ones get peace of mind, and you get burial, funeral, " ++
  "and final expenses covered. Call (561) 576-0801 now to enroll in minutes, and secure your family’s future today!"

def ACA_BENEFITS : List String :=
  ["$0 Health Plans – ACA Subsidies",
   "Dental, Vision & Prescriptions Included",
   "Fast 5-Minute Enrollment"]

def FE_BENEFITS : List String :=
  ["Guaranteed Issue – No Exam Required",
   "Rates Start at $20/Month",
   "Covers Burial & Funeral Costs"]

/-! ## generate_ad (orchestrator) -/

/-- `os.path.join(OUTPUT_DIR, f"\x7boutput_prefix\x7d_audio.wav")`. -/
def audio_path (opfx : String) : String := OUTPUT_DIR ++ "/" ++ (opfx ++ "_audio.wav")

/-- `os.path.join(OUTPUT_DIR, f"\x7boutput_prefix\x7d_lip.mp4")`. -/
def lip_video_path (opfx : String) : String := OUTPUT_DIR ++ "/" ++ (opfx ++ "_lip.mp4")

/-- `os.path.join(OUTPUT_DIR, f"\x7boutput_prefix\x7d_final.mp4")`. -/
def final_output_path (opfx : String) : String := OUTPUT_DIR ++ "/" ++ (opfx ++ "_final.mp4")

/-- The three artifact paths one run with output prefix `opfx` derives. -/
def artifact_paths (opfx : String) : List String :=
  [audio_path opfx, lip_video_path opfx, final_output_path opfx]

/-- `generate_ad(template_text, benefit_list, output_prefix)`: TTS audio, then
lip-sync, then slide composition, each stage aborting the run on error. The
phone number passed to `create_benefit_slides` is the literal "(561) 576-0801". -/
def generate_ad (env : Env) (template_text : String) (benefit_list : List String)
    (opfx : String) : List Effect × Except PyError FinalVideo :=
  match generate_audio env template_text (audio_path opfx) with
  | (fx1, Except.error e) => (fx1, Except.error e)
  | (fx1, Except.ok apath) =>
    match generate_lip_synced_video env apath SPOKESPERSON_IMAGE (lip_video_path opfx) with
    | (fx2, Except.error e) => (fx1 ++ fx2, Except.error e)
    | (fx2, Except.ok _) =>
      let lip_clip := env.lipClip
      let r := create_benefit_slides lip_clip benefit_list "(561) 576-0801"
        (final_output_path opfx)
      (fx1 ++ fx2 ++ r.1, Except.ok r.2)

/-! ## Menu (main) -/

/-- Python `str.strip()`: drop leading and trailing whitespace. -/
def pyStrip (s : String) : String :=
  String.mk (((s.data.dropWhile Char.isWhitespace).reverse.dropWhile Char.isWhitespace).reverse)

def splitOnCommaAux : List Char → List Char → List (List Char)
  | [], acc => [acc.reverse]
  | x :: xs, acc =>
    if x = ',' then acc.reverse :: splitOnCommaAux xs []
    else splitOnCommaAux xs (x :: acc)

/-- Python `str.split(",")`: split on every comma, keeping empty parts
(the empty string splits to `[""]`). -/
def pySplitComma (s : String) : List String :=
  (splitOnCommaAux s.data []).map String.mk

/-- The fallback benefit pair used by menu option 3 when no non-empty bullet
is supplied. -/
def DEFAULT_CUSTOM_BENEFITS : List String :=
  ["Affordable Coverage Available", "Call Now: (561) 576-0801"]

/-- Option 3 bullet handling: split the raw input on commas, strip each
part, keep the non-empty ones; fall back to the default pair if none remain. -/
def custom_benefit_list (bullets_input : String) : List String :=
  let bullets := pySplitComma bullets_input
  let benefit_list := (bullets.map pyStrip).filter (fun b => !b.data.isEmpty)
  if benefit_list.isEmpty then DEFAULT_CUSTOM_BENEFITS else benefit_list

/-- One iteration of the `main` menu loop, restricted to its decision of
whether and how to call `generate_ad`: given the raw menu input (stripped by
`show_menu`) and, for option 3, the raw custom-script and bullet inputs,
returns the `(template_text, benefit_list, output_prefix)` triple passed to
`generate_ad`, or `none` when no ad is generated (exit or invalid choice). -/
def menu_dispatch (raw_choice custom_text_raw bullets_input : String) :
    Option (String × List String × String) :=
  let choice := pyStrip raw_choice
  if choice = "1" then some (ACA_TEMPLATE, ACA_BENEFITS, "aca_ad")
  else if choice = "2" then some (FE_TEMPLATE, FE_BENEFITS, "fe_ad")
  else if choice = "3" then
    some (pyStrip custom_text_raw, custom_benefit_list bullets_input, "custom_ad")
  else none

/-- One segment of the final visual timeline. -/
inductive Segment where
  | head (clip : VideoClip)
  | slide (spec : TextClip)
  deriving DecidableEq, Repr

/-- The visual timeline of the final artifact: the talking-head clip followed
by the slide clips, in concatenation order. -/
def timeline (fv : FinalVideo) : List Segment :=
  Segment.head fv.headClip :: fv.slides.map Segment.slide

/-! ## Concrete environments used as witnesses -/

/-- A fully successful external world: TTS returns 200, checkpoint on disk,
Wav2Lip exits 0. -/
def env200 : Env :=
  { ttsResponse := { status_code := 200, text := "OK", content := [0, 1, 2] },
    checkpointExists := true, wav2lipExit := 0,
    lipClip := { size := VIDEO_SIZE, audio := some "narration-audio" } }

/-- An external world where the TTS service rejects the call with 401. -/
def envTTSFail : Env :=
  { ttsResponse := { status_code := 401, text := "Unauthorized", content := [] },
    checkpointExists := true, wav2lipExit := 0,
    lipClip := { size := VIDEO_SIZE, audio := some "narration-audio" } }

/-- An external world where the Wav2Lip checkpoint file is missing. -/
def envNoCkpt : Env :=
  { ttsResponse := { status_code := 200, text := "OK", content := [0, 1, 2] },
    checkpointExists := false, wav2lipExit := 0,
    lipClip := { size := VIDEO_SIZE, audio := some "narration-audio" } }

/-! ## Helper lemmas -/

theorem string_eq_of_data {p q : String} (h : p.data = q.data) : p = q := by
  cases p
  cases q
  exact congrArg String.mk h

theorem data_append (s t : String) : (s ++ t).data = s.data ++ t.data := rfl

/-- Cancel the shared `output/` directory part of two artifact paths. -/
theorem path_eq_cancel {p q : String} {su tu : String}
    (h : OUTPUT_DIR ++ "/" ++ (p ++ su) = OUTPUT_DIR ++ "/" ++ (q ++ tu)) :
    p.data ++ su.data = q.data ++ tu.data := by
  have hd := congrArg String.data h
  simp only [data_append, List.append_assoc] at hd
  exact (List.append_right_inj _).mp ((List.append_right_inj _).mp hd)

/-- Equal strings with the same literal suffix have equal stems. -/
theorem stem_eq_of_append_eq {p q : String} {s : List Char}
    (h : p.data ++ s = q.data ++ s) : p = q :=
  string_eq_of_data (List.append_inj' h rfl).1

/-- Two appends whose suffixes disagree at position `k` from the right are
never equal, whatever the stems are. -/
theorem append_suffix_ne {p q : String} {s t : List Char} (k : Nat)
    (hs : k < s.length) (ht : k < t.length)
    (hne : (s.reverse)[k]? ≠ (t.reverse)[k]?) :
    p.data ++ s ≠ q.data ++ t := by
  intro h
  apply hne
  have hr := congrArg List.reverse h
  simp only [List.reverse_append] at hr
  have h1 : (s.reverse ++ p.data.reverse)[k]? = (s.reverse)[k]? :=
    List.getElem?_append_left (by simpa using hs)
  have h2 : (t.reverse ++ q.data.reverse)[k]? = (t.reverse)[k]? :=
    List.getElem?_append_left (by simpa using ht)
  rw [← h1, ← h2, hr]

/-- When `generate_ad` succeeds, the final video is exactly the one composed
by `create_benefit_slides` from the lip-synced clip, the supplied benefit list,
the hard-coded phone number and the derived output path. -/
theorem generate_ad_ok {env : Env} {t : String} {bl : List String} {opfx : String}
    {fv : FinalVideo} (hok : (generate_ad env t bl opfx).2 = Except.ok fv) :
    fv = (create_benefit_slides env.lipClip bl "(561) 576-0801" (final_output_path opfx)).2 := by
  unfold generate_ad at hok
  rcases hga : generate_audio env t (audio_path opfx) with ⟨fx1, r1⟩
  rw [hga] at hok
  cases r1 with
  | error e => simp at hok
  | ok apath =>
    dsimp only at hok
    rcases hgl : generate_lip_synced_video env apath SPOKESPERSON_IMAGE (lip_video_path opfx)
      with ⟨fx2, r2⟩
    rw [hgl] at hok
    cases r2 with
    | error e => simp at hok
    | ok _ =>
      simp at hok
      exact hok.symm

/-! ## Claims -/

/-- Claim C1: the visual timeline of the final artifact produced by
`create_benefit_slides` is the talking-head clip first, then one slide per
supplied benefit bullet in supply order, then exactly one CTA slide last,
and nothing else. -/
theorem final_timeline_order (video_clip : VideoClip) (benefit_texts : List String)
    (phone_number output_path : String) :
    timeline (create_benefit_slides video_clip benefit_texts phone_number output_path).2 =
      Segment.head video_clip ::
        (benefit_texts.map (fun b => Segment.slide (benefitClip video_clip.size b)) ++
          [Segment.slide (ctaClip video_clip.size phone_number)]) := by
  simp [timeline, create_benefit_slides, List.map_append, List.map_map, Function.comp]

/-- Claim C5: every benefit slide lasts exactly 3 seconds and matches the
talking-head clip frame size; the single CTA slide lasts exactly 4 seconds,
has the same frame size, a strictly larger font and an accent color distinct
from the benefit slides. -/
theorem slide_durations_and_style (vc : VideoClip) (benefits : List String)
    (phone out_p : String) :
    ((create_benefit_slides vc benefits phone out_p).2.slides =
      benefits.map (benefitClip vc.size) ++ [ctaClip vc.size phone]) ∧
    (∀ b, (benefitClip vc.size b).duration = 3 ∧ (benefitClip vc.size b).size = vc.size) ∧
    (ctaClip vc.size phone).duration = 4 ∧
    (ctaClip vc.size phone).size = vc.size ∧
    (∀ b, (benefitClip vc.size b).fontsize < (ctaClip vc.size phone).fontsize) ∧
    (ctaClip vc.size phone).color = "yellow" ∧
    (∀ b, (benefitClip vc.size b).color = "white") :=
  ⟨rfl, fun _ => ⟨rfl, rfl⟩, rfl, rfl, fun _ => (by decide : (48 : Nat) < 60), rfl,
    fun _ => rfl⟩

/-- Claim C6: the slide sequence carries the talking-head clip original audio
track, the timeline is the talking-head clip followed by the slide sequence,
and the final artifact is always encoded at the fixed frame rate 24. -/
theorem slides_carry_head_audio (vc : VideoClip) (benefits : List String)
    (phone out_p : String) :
    ((create_benefit_slides vc benefits phone out_p).2.slidesAudio = vc.audio) ∧
    timeline (create_benefit_slides vc benefits phone out_p).2 =
      Segment.head vc ::
        ((create_benefit_slides vc benefits phone out_p).2.slides.map Segment.slide) ∧
    ((create_benefit_slides vc benefits phone out_p).2.fps = 24) ∧
    (create_benefit_slides vc benefits phone out_p).1 = [Effect.writeVideo out_p 24] :=
  ⟨rfl, rfl, rfl, rfl⟩

/-- Claim C3: when the TTS service returns a non-success status, the run fails
with a RuntimeError carrying the status code and service message, the only
side effect is the HTTP post itself (no file written, no subprocess spawned,
no video composed). -/
theorem tts_failure_aborts (env : Env) (t : String) (bl : List String) (opfx : String)
    (h : env.ttsResponse.status_code ≠ 200) :
    (generate_ad env t bl opfx).2 = Except.error (PyError.runtimeError
      ("ElevenLabs TTS failed: " ++ toString env.ttsResponse.status_code ++ " " ++
        env.ttsResponse.text)) ∧
    (generate_ad env t bl opfx).1 = [Effect.httpPost tts_url t] ∧
    ∀ e ∈ (generate_ad env t bl opfx).1,
      e.isFileWrite = false ∧ e.isSubprocess = false ∧ e.isVideoWrite = false := by
  have hga : generate_audio env t (audio_path opfx) =
      ([Effect.httpPost tts_url t], Except.error (PyError.runtimeError
        ("ElevenLabs TTS failed: " ++ toString env.ttsResponse.status_code ++ " " ++
          env.ttsResponse.text))) := by
    unfold generate_audio
    rw [if_neg h]
  have hfull : generate_ad env t bl opfx =
      ([Effect.httpPost tts_url t], Except.error (PyError.runtimeError
        ("ElevenLabs TTS failed: " ++ toString env.ttsResponse.status_code ++ " " ++
          env.ttsResponse.text))) := by
    unfold generate_ad
    rw [hga]
  rw [hfull]
  refine ⟨rfl, rfl, ?_⟩
  intro e he
  simp only [List.mem_singleton] at he
  subst he
  exact ⟨rfl, rfl, rfl⟩

/-- Witness for C3 at a concrete 401 environment. -/
theorem tts_failure_aborts_witness :
    envTTSFail.ttsResponse.status_code ≠ 200 ∧
    ((generate_ad envTTSFail "Hello" ["A"] "t1").2 = Except.error (PyError.runtimeError
      ("ElevenLabs TTS failed: " ++ toString envTTSFail.ttsResponse.status_code ++ " " ++
        envTTSFail.ttsResponse.text)) ∧
    (generate_ad envTTSFail "Hello" ["A"] "t1").1 = [Effect.httpPost tts_url "Hello"] ∧
    ∀ e ∈ (generate_ad envTTSFail "Hello" ["A"] "t1").1,
      e.isFileWrite = false ∧ e.isSubprocess = false ∧ e.isVideoWrite = false) :=
  ⟨by decide, tts_failure_aborts envTTSFail "Hello" ["A"] "t1" (by decide)⟩

/-- Claim C4: when the model checkpoint is absent, `generate_lip_synced_video`
fails with a FileNotFoundError and an empty effect trace (no subprocess is
spawned); conversely a subprocess effect can occur only when the checkpoint
exists. -/
theorem missing_checkpoint_fails_fast (env : Env) (audio_p image_p out_p : String) :
    (env.checkpointExists = false →
      generate_lip_synced_video env audio_p image_p out_p =
        ([], Except.error (PyError.fileNotFoundError
          "Place wav2lip_gan.pth into Wav2Lip/checkpoints/ first."))) ∧
    (∀ e ∈ (generate_lip_synced_video env audio_p image_p out_p).1,
      e.isSubprocess = true → env.checkpointExists = true) := by
  constructor
  · intro h
    unfold generate_lip_synced_video
    rw [if_pos h]
  · intro e he _
    unfold generate_lip_synced_video at he
    by_cases h : env.checkpointExists = false
    · rw [if_pos h] at he
      simp at he
    · simpa using h

/-- Witness for C4 at a concrete environment with a missing checkpoint. -/
theorem missing_checkpoint_witness :
    envNoCkpt.checkpointExists = false ∧
    generate_lip_synced_video envNoCkpt "a.wav" "spokesperson.jpg" "out.mp4" =
      ([], Except.error (PyError.fileNotFoundError
        "Place wav2lip_gan.pth into Wav2Lip/checkpoints/ first.")) :=
  ⟨rfl, (missing_checkpoint_fails_fast envNoCkpt "a.wav" "spokesperson.jpg" "out.mp4").1 rfl⟩

/-- Claim C7: the three artifact paths are derived deterministically from the
output prefix (`output/` joined with the prefix plus a stage suffix and fixed
extension), and distinct prefixes always yield disjoint path sets. -/
theorem artifact_paths_disjoint (p q : String) (hne : p ≠ q) :
    artifact_paths p = [OUTPUT_DIR ++ "/" ++ (p ++ "_audio.wav"),
      OUTPUT_DIR ++ "/" ++ (p ++ "_lip.mp4"),
      OUTPUT_DIR ++ "/" ++ (p ++ "_final.mp4")] ∧
    ∀ a ∈ artifact_paths p, a ∉ artifact_paths q := by
  refine ⟨rfl, ?_⟩
  intro a ha hb
  simp only [artifact_paths, audio_path, lip_video_path, final_output_path,
    List.mem_cons, List.not_mem_nil, or_false] at ha hb
  rcases ha with ha | ha | ha <;> subst ha <;> rcases hb with hb | hb | hb
  · exact hne (stem_eq_of_append_eq (path_eq_cancel hb))
  · exact append_suffix_ne 0 (by decide) (by decide) (by decide) (path_eq_cancel hb)
  · exact append_suffix_ne 0 (by decide) (by decide) (by decide) (path_eq_cancel hb)
  · exact append_suffix_ne 0 (by decide) (by decide) (by decide) (path_eq_cancel hb)
  · exact hne (stem_eq_of_append_eq (path_eq_cancel hb))
  · exact append_suffix_ne 4 (by decide) (by decide) (by decide) (path_eq_cancel hb)
  · exact append_suffix_ne 0 (by decide) (by decide) (by decide) (path_eq_cancel hb)
  · exact append_suffix_ne 4 (by decide) (by decide) (by decide) (path_eq_cancel hb)
  · exact hne (stem_eq_of_append_eq (path_eq_cancel hb))

/-- Witness for C7 at the two concrete template prefixes. -/
theorem artifact_paths_disjoint_witness :
    "aca_ad" ≠ "fe_ad" ∧ audio_path "aca_ad" ∉ artifact_paths "fe_ad" :=
  ⟨by decide, (artifact_paths_disjoint "aca_ad" "fe_ad" (by decide)).2
    (audio_path "aca_ad") (by simp [artifact_paths])⟩

/-- The benefit list built by menu option 3 is never empty. -/
theorem custom_benefit_list_ne_nil (bi : String) : custom_benefit_list bi ≠ [] := by
  simp only [custom_benefit_list]
  split
  · simp [DEFAULT_CUSTOM_BENEFITS]
  · next h => simpa [List.isEmpty_iff] using h

/-- Claim C2: every benefit list the menu hands to `generate_ad` is non-empty
(option 3 falls back to the default pair when no non-empty bullet is supplied),
so no final artifact has a CTA slide with zero preceding benefit slides. -/
theorem menu_no_cta_only (raw_choice ctr bi t : String) (bl : List String) (opfx : String)
    (h : menu_dispatch raw_choice ctr bi = some (t, bl, opfx))
    (env : Env) (fv : FinalVideo)
    (hok : (generate_ad env t bl opfx).2 = Except.ok fv) :
    bl ≠ [] ∧
    fv.slides = bl.map (benefitClip env.lipClip.size) ++
      [ctaClip env.lipClip.size "(561) 576-0801"] ∧
    bl.map (benefitClip env.lipClip.size) ≠ [] ∧
    (pyStrip raw_choice = "3" →
      ((pySplitComma bi).map pyStrip).filter (fun b => !b.data.isEmpty) = [] →
      bl = DEFAULT_CUSTOM_BENEFITS) := by
  have hfv := generate_ad_ok hok
  subst hfv
  simp only [menu_dispatch] at h
  split_ifs at h with hc1 hc2 hc3
  · simp only [Option.some.injEq, Prod.mk.injEq] at h
    obtain ⟨-, hbl, -⟩ := h
    subst hbl
    refine ⟨by simp [ACA_BENEFITS], rfl, by simp [ACA_BENEFITS], ?_⟩
    intro h3
    exact absurd (hc1.symm.trans h3) (by decide)
  · simp only [Option.some.injEq, Prod.mk.injEq] at h
    obtain ⟨-, hbl, -⟩ := h
    subst hbl
    refine ⟨by simp [FE_BENEFITS], rfl, by simp [FE_BENEFITS], ?_⟩
    intro h3
    exact absurd (hc2.symm.trans h3) (by decide)
  · simp only [Option.some.injEq, Prod.mk.injEq] at h
    obtain ⟨-, hbl, -⟩ := h
    subst hbl
    refine ⟨custom_benefit_list_ne_nil bi, rfl, ?_, ?_⟩
    · simp [List.map_eq_nil_iff, custom_benefit_list_ne_nil bi]
    · intro _ hempty
      simp only [custom_benefit_list]
      simp [hempty]

/-- The final video composed for the default custom benefits in the all-success
environment. -/
def fvCustom : FinalVideo :=
  (create_benefit_slides env200.lipClip DEFAULT_CUSTOM_BENEFITS "(561) 576-0801"
    (final_output_path "custom_ad")).2

/-- Witness for C2: option 3 with only-whitespace bullets uses the default
pair, and the resulting final artifact carries both default benefit slides
before the CTA slide. -/
theorem menu_no_cta_only_witness :
    menu_dispatch "3" "Hello" " , " = some ("Hello", DEFAULT_CUSTOM_BENEFITS, "custom_ad") ∧
    (generate_ad env200 "Hello" DEFAULT_CUSTOM_BENEFITS "custom_ad").2 = Except.ok fvCustom ∧
    (DEFAULT_CUSTOM_BENEFITS ≠ [] ∧
      fvCustom.slides = DEFAULT_CUSTOM_BENEFITS.map (benefitClip env200.lipClip.size) ++
        [ctaClip env200.lipClip.size "(561) 576-0801"] ∧
      DEFAULT_CUSTOM_BENEFITS.map (benefitClip env200.lipClip.size) ≠ [] ∧
      (pyStrip "3" = "3" →
        ((pySplitComma " , ").map pyStrip).filter (fun b => !b.data.isEmpty) = [] →
        DEFAULT_CUSTOM_BENEFITS = DEFAULT_CUSTOM_BENEFITS)) :=
  ⟨by decide, rfl, menu_no_cta_only "3" "Hello" " , " "Hello" DEFAULT_CUSTOM_BENEFITS
    "custom_ad" (by decide) env200 fvCustom rfl⟩

/-- Claim C9: whatever the template or custom input, the phone number reaching
the composer is the literal "(561) 576-0801", so every successful run ends
with a CTA slide whose text is exactly "Call Now: (561) 576-0801". -/
theorem cta_phone_constant (env : Env) (t : String) (bl : List String) (opfx : String)
    (fv : FinalVideo) (hok : (generate_ad env t bl opfx).2 = Except.ok fv) :
    fv.slides.getLast? = some (ctaClip env.lipClip.size "(561) 576-0801") ∧
    (ctaClip env.lipClip.size "(561) 576-0801").text = "Call Now: (561) 576-0801" := by
  have hfv := generate_ad_ok hok
  subst hfv
  refine ⟨?_, rfl⟩
  show (bl.map (benefitClip env.lipClip.size) ++
      [ctaClip env.lipClip.size "(561) 576-0801"]).getLast? =
    some (ctaClip env.lipClip.size "(561) 576-0801")
  exact List.getLast?_concat _

/-- The final video composed for one benefit bullet in the all-success
environment. -/
def fvT1 : FinalVideo :=
  (create_benefit_slides env200.lipClip ["A"] "(561) 576-0801" (final_output_path "t1")).2

/-- Witness for C9 at a concrete successful run. -/
theorem cta_phone_constant_witness :
    (generate_ad env200 "Hi" ["A"] "t1").2 = Except.ok fvT1 ∧
    (fvT1.slides.getLast? = some (ctaClip env200.lipClip.size "(561) 576-0801") ∧
      (ctaClip env200.lipClip.size "(561) 576-0801").text = "Call Now: (561) 576-0801") :=
  ⟨rfl, cta_phone_constant env200 "Hi" ["A"] "t1" fvT1 rfl⟩

/-- Claim C10: the menu only ever calls `generate_ad` with a prefix from the
fixed set, and two dispatches of the same menu option use the same prefix and
hence derive identical artifact paths. -/
theorem menu_prefix_fixed (raw_choice ct1 bi1 ct2 bi2 t1 t2 : String)
    (bl1 bl2 : List String) (p1 p2 : String)
    (h1 : menu_dispatch raw_choice ct1 bi1 = some (t1, bl1, p1))
    (h2 : menu_dispatch raw_choice ct2 bi2 = some (t2, bl2, p2)) :
    p1 ∈ ["aca_ad", "fe_ad", "custom_ad"] ∧ p1 = p2 ∧
      artifact_paths p1 = artifact_paths p2 := by
  simp only [menu_dispatch] at h1 h2
  split_ifs at h1 h2 <;> simp_all

/-- Witness for C10: two different option-3 inputs dispatch to the same
prefix. -/
theorem menu_prefix_fixed_witness :
    menu_dispatch " 3 " "a" "" = some ("a", DEFAULT_CUSTOM_BENEFITS, "custom_ad") ∧
    menu_dispatch " 3 " "b" "X,Y" = some ("b", ["X", "Y"], "custom_ad") ∧
    ("custom_ad" ∈ ["aca_ad", "fe_ad", "custom_ad"] ∧ "custom_ad" = "custom_ad" ∧
      artifact_paths "custom_ad" = artifact_paths "custom_ad") :=
  ⟨by decide, by decide, menu_prefix_fixed " 3 " "a" "" "b" "X,Y" "a" "b"
    DEFAULT_CUSTOM_BENEFITS ["X", "Y"] "custom_ad" "custom_ad" (by decide) (by decide)⟩

/-- Claim C8 counterexample: with empty narration the code raises no local
InvalidInput error; the menu custom entry forwards the empty script unchanged
and `generate_audio` posts the empty text to the TTS service and, when the
service answers 200, writes the audio file and succeeds. -/
theorem empty_narration_no_validation :
    menu_dispatch "3" "" "A" = some ("", ["A"], "custom_ad") ∧
    (generate_audio env200 "" (audio_path "custom_ad")).1 =
      [Effect.httpPost tts_url "", Effect.writeFile (audio_path "custom_ad") [0, 1, 2]] ∧
    (generate_audio env200 "" (audio_path "custom_ad")).2 = Except.ok (audio_path "custom_ad") :=
  ⟨by decide, rfl, rfl⟩

/-- Claim C8 amended: `generate_audio` performs no narration validation at
all — for every text, empty included, the first effect is the HTTP post of
that very text to the TTS service, and the outcome depends only on the
service status code, never on the text. -/
theorem no_local_input_validation (env : Env) (text output_path : String) :
    (generate_audio env text output_path).1.head? = some (Effect.httpPost tts_url text) ∧
    (generate_audio env text output_path).2 =
      (if env.ttsResponse.status_code = 200 then Except.ok output_path
        else Except.error (PyError.runtimeError
          ("ElevenLabs TTS failed: " ++ toString env.ttsResponse.status_code ++ " " ++
            env.ttsResponse.text))) := by
  simp only [generate_audio]
  split <;> exact ⟨rfl, rfl⟩

end FBAds
